import Mathlib

/-!
Verification of the CRUD+reporting core of the ExpenseTracker web app
(`src/app.py`): user registration/login, transaction insertion and
filtered retrieval, the legacy `user_id` column migration, orphan
reassignment, and the aggregation totals.

The SQLite-backed state is embedded shallowly: the two tables become
lists of records inside a `DB` structure, and each Python function that
touches the database becomes a pure Lean function threading the state
explicitly.  The SHA-256 digest (an external library call in the
source) is abstracted as a function parameter `digest : String → String`.
Dates are kept as the stored strings; SQLite's `strftime('%m', d)` /
`strftime('%Y', d)` on an ISO `YYYY-MM-DD` string are the character
ranges [5,7) and [0,4) of `d`.
-/

/-- A row of the `users` table: `id, username, password` (the password
column stores the hex digest, as in the source). -/
structure User where
  id : Nat
  username : String
  password : String
deriving DecidableEq, Repr

/-- A row of the `transactions` table:
`id, user_id, date, type, category, description, amount`.
The `type` column is named `t_type` after the Python parameter. -/
structure Txn where
  id : Nat
  user_id : Nat
  date : String
  t_type : String
  category : String
  description : String
  amount : Rat
deriving DecidableEq, Repr

/-- The database state: both tables plus the AUTOINCREMENT counters. -/
structure DB where
  users : List User
  transactions : List Txn
  nextUserId : Nat
  nextTxnId : Nat
deriving DecidableEq, Repr

/-- `hash_password` (src/app.py line 46):
`hashlib.sha256(password.encode()).hexdigest()`.  The digest itself is
an external library primitive, so it is passed in as `digest`. -/
def hash_password (digest : String → String) (password : String) : String :=
  digest password

/-- `register_user` (src/app.py lines 52-59): `INSERT INTO users` returns
`True`; a `UNIQUE` violation on `username` raises `IntegrityError`,
caught and turned into `False` with no mutation. -/
def register_user (digest : String → String) (db : DB)
    (username password : String) : Bool × DB :=
  if db.users.any fun u => u.username == username then
    (false, db)
  else
    (true,
      { db with
        users := db.users ++
          [{ id := db.nextUserId, username := username,
             password := hash_password digest password }],
        nextUserId := db.nextUserId + 1 })

/-- `login_user` (src/app.py lines 61-64):
`SELECT * FROM users WHERE username=? AND password=?` followed by
`fetchone()`.  A `SELECT` does not mutate the database, so the state is
returned unchanged alongside the first matching row. -/
def login_user (digest : String → String) (db : DB)
    (username password : String) : Option User × DB :=
  (db.users.find? fun u =>
      u.username == username && u.password == hash_password digest password,
   db)

/-- `add_transaction` (src/app.py lines 69-74): a single unconditional
`INSERT INTO transactions`. -/
def add_transaction (db : DB) (user_id : Nat)
    (date_val t_type category description : String) (amount : Rat) : DB :=
  { db with
    transactions := db.transactions ++
      [{ id := db.nextTxnId, user_id := user_id, date := date_val,
         t_type := t_type, category := category,
         description := description, amount := amount }],
    nextTxnId := db.nextTxnId + 1 }

/-- SQLite `strftime('%m', d)` on a well-formed `YYYY-MM-DD` string:
characters 5 and 6. -/
def strftime_m (d : String) : String :=
  ⟨(d.toList.drop 5).take 2⟩

/-- SQLite `strftime('%Y', d)` on a well-formed `YYYY-MM-DD` string:
characters 0-3. -/
def strftime_Y (d : String) : String :=
  ⟨d.toList.take 4⟩

/-- Python truthiness of the optional `month` / `year` arguments:
`if month:` is `False` for `None` and for `0`. -/
def truthy : Option Nat → Bool
  | none => false
  | some n => n != 0

/-- Python `f"{int(month):02d}"`: two-digit zero-padded rendering. -/
def pad2 (n : Nat) : String :=
  if n < 10 then "0" ++ toString n else toString n

/-- `get_transactions` (src/app.py lines 76-90): selects the rows with
`user_id=?`, appending `AND strftime('%m', date) = ?` when `month` is
truthy and `AND strftime('%Y', date) = ?` when `year` is truthy.
(The source then projects the five columns date/type/category/
description/amount into a dataframe; we keep the full rows, which
carries strictly more information.) -/
def get_transactions (db : DB) (user_id : Nat)
    (month year : Option Nat) : List Txn :=
  db.transactions.filter fun t =>
    t.user_id == user_id
    && (if truthy month then strftime_m t.date == pad2 (month.getD 0) else true)
    && (if truthy year then strftime_Y t.date == toString (year.getD 0) else true)

/-- The login-time orphan reassignment (src/app.py line 138):
`UPDATE transactions SET user_id=? WHERE user_id=0`. -/
def reassign_orphans (db : DB) (user_id : Nat) : DB :=
  { db with
    transactions := db.transactions.map fun t =>
      if t.user_id == 0 then { t with user_id := user_id } else t }

/-- `df[df['Type'] == 'Income']['Amount'].sum()` (src/app.py line 179). -/
def total_income (ts : List Txn) : Rat :=
  ((ts.filter fun t => t.t_type == "Income").map (·.amount)).sum

/-- `df[df['Type'] == 'Expense']['Amount'].sum()` (src/app.py line 180). -/
def total_expense (ts : List Txn) : Rat :=
  ((ts.filter fun t => t.t_type == "Expense").map (·.amount)).sum

/-- Modelled from the spec: `net = income total − expense total`.  The
net figure is described in §4.5 of the spec but computed only by the
second app variant, which is not under src/. -/
def net (ts : List Txn) : Rat :=
  total_income ts - total_expense ts

/-- First-occurrence deduplication, used to model a group-by key list. -/
def dedupFirst {α : Type} [BEq α] (l : List α) : List α :=
  l.foldl (fun acc c => if acc.contains c then acc else acc ++ [c]) []

/-- Modelled from the spec: the category breakdown of §4.5 — for
Expense-type rows only, group by category and sum amount per category.
Computed by the second app variant, which is not under src/. -/
def category_breakdown (ts : List Txn) : List (String × Rat) :=
  (dedupFirst ((ts.filter fun t => t.t_type == "Expense").map (·.category))).map
    fun c =>
      (c, ((ts.filter fun t => t.t_type == "Expense" && t.category == c).map
            (·.amount)).sum)

/-- Modelled from the spec: the monthly series of §4.5 — group all rows
by (year+month key, type), summing amount per cell.  Computed by the
second app variant, which is not under src/. -/
def monthly_series (ts : List Txn) : List ((String × String) × Rat) :=
  (dedupFirst (ts.map fun t =>
      (strftime_Y t.date ++ "-" ++ strftime_m t.date, t.t_type))).map
    fun k =>
      (k, ((ts.filter fun t =>
             (strftime_Y t.date ++ "-" ++ strftime_m t.date, t.t_type) == k).map
            (·.amount)).sum)

/-- A row of the pre-migration `transactions` table.  `user_id` is
`none` while the column is absent from the schema. -/
structure RawRow where
  date : String
  t_type : String
  category : String
  description : String
  amount : Rat
  user_id : Option Nat
deriving DecidableEq, Repr

/-- The `transactions` table together with its column set, as inspected
by `PRAGMA table_info(transactions)` (src/app.py lines 36-37). -/
structure RawTable where
  columns : List String
  rows : List RawRow
deriving DecidableEq, Repr

/-- The startup migration (src/app.py lines 36-41): if `"user_id"` is
not among the columns, `ALTER TABLE transactions ADD COLUMN user_id
INTEGER DEFAULT 0` — the column is appended and every existing row gets
the sentinel 0. -/
def migrate_user_id (tbl : RawTable) : RawTable :=
  if "user_id" ∈ tbl.columns then tbl
  else
    { columns := tbl.columns ++ ["user_id"],
      rows := tbl.rows.map fun r => { r with user_id := some 0 } }

/-- Folding `login_user` over a list of credential pairs, to state that
no sequence of login attempts ever changes the database. -/
def run_logins (digest : String → String) (db : DB) :
    List (String × String) → DB
  | [] => db
  | (u, p) :: rest => run_logins digest (login_user digest db u p).2 rest

/-- Reference recursion for the totals: the sum over a transaction list
of the amounts of rows of a given type, written directly. -/
def sumAmountsOfType (ty : String) : List Txn → Rat
  | [] => 0
  | t :: ts => (if t.t_type = ty then t.amount else 0) + sumAmountsOfType ty ts

/-- The three-row example set of §8 of the spec:
`{Income,100}, {Expense,40,Food}, {Expense,30,Food}`. -/
def exampleTxns : List Txn :=
  [ { id := 1, user_id := 1, date := "2024-01-01", t_type := "Income",
      category := "Salary", description := "", amount := 100 },
    { id := 2, user_id := 1, date := "2024-01-02", t_type := "Expense",
      category := "Food", description := "", amount := 40 },
    { id := 3, user_id := 1, date := "2024-01-03", t_type := "Expense",
      category := "Food", description := "", amount := 30 } ]

/-! ## Claim theorems -/

/-- C10: passing `month = 0` or `year = 0` to `get_transactions` behaves
exactly like omitting the filter, because Python's `if month:` /
`if year:` treats `0` as falsy. -/
theorem C10_zero_filter_is_no_filter (db : DB) (uid : Nat)
    (month year : Option Nat) :
    get_transactions db uid (some 0) year = get_transactions db uid none year
    ∧ get_transactions db uid month (some 0) = get_transactions db uid month none := by
  constructor <;> simp [get_transactions, truthy]

/-- C8: aggregation over the empty transaction set yields zero totals,
zero net, and empty category breakdown and monthly series, without
error (the functions are total). -/
theorem C8_empty_aggregation :
    total_income [] = 0 ∧ total_expense [] = 0 ∧ net [] = 0
    ∧ category_breakdown [] = [] ∧ monthly_series [] = [] := by
  refine ⟨rfl, rfl, ?_, rfl, rfl⟩
  simp [net, total_income, total_expense]

/-- C7: `add_transaction` succeeds on every input tuple — including a
negative amount, which the store does not re-validate — and appends
exactly one new transaction row, leaving the users table unchanged. -/
theorem C7_add_transaction_always_inserts_one_row (db : DB) (uid : Nat)
    (d ty c desc : String) (a : Rat) :
    (add_transaction db uid d ty c desc a).transactions =
      db.transactions ++
        [{ id := db.nextTxnId, user_id := uid, date := d, t_type := ty,
           category := c, description := desc, amount := a }]
    ∧ (add_transaction db uid d ty c desc a).transactions.length =
        db.transactions.length + 1
    ∧ (add_transaction db uid d ty c desc a).users = db.users
    ∧ (add_transaction db uid d ty c desc (-5 : Rat)).transactions.length =
        db.transactions.length + 1 := by
  refine ⟨rfl, ?_, rfl, ?_⟩ <;> simp [add_transaction]

/-- C9: `login_user` is a pure read — it never changes the users table
or the transactions table, and no sequence of login attempts changes
the database at all. -/
theorem C9_login_is_pure_read (digest : String → String) (db : DB)
    (u p : String) (creds : List (String × String)) :
    (login_user digest db u p).2.users = db.users
    ∧ (login_user digest db u p).2.transactions = db.transactions
    ∧ run_logins digest db creds = db := by
  refine ⟨rfl, rfl, ?_⟩
  induction creds generalizing db with
  | nil => rfl
  | cons c rest ih =>
      cases c with
      | mk u' p' => exact ih ((login_user digest db u' p').2)

/-- C2: the totals are exactly the type-wise sums of the amounts — the
income total sums the Income rows, the expense total sums the Expense
rows, net is their difference — and on the example set
`{Income,100}, {Expense,40,Food}, {Expense,30,Food}` they evaluate to
100, 70 and 30. -/
theorem C2_totals_are_typewise_sums (ts : List Txn) :
    total_income ts = sumAmountsOfType "Income" ts
    ∧ total_expense ts = sumAmountsOfType "Expense" ts
    ∧ net ts = sumAmountsOfType "Income" ts - sumAmountsOfType "Expense" ts
    ∧ total_income exampleTxns = 100
    ∧ total_expense exampleTxns = 70
    ∧ net exampleTxns = 30 := by
  have key : ∀ (ty : String) (l : List Txn),
      ((l.filter fun t => t.t_type == ty).map (·.amount)).sum
        = sumAmountsOfType ty l := by
    intro ty l
    induction l with
    | nil => rfl
    | cons t l ih =>
        by_cases h : t.t_type = ty
        · simp [sumAmountsOfType, h, List.filter_cons, ih]
        · simp [sumAmountsOfType, h, List.filter_cons, ih]
  refine ⟨key _ _, key _ _, ?_, ?_, ?_, ?_⟩
  · simp [net, total_income, total_expense, key]
  · simp [total_income, exampleTxns]
  · simp [total_expense, exampleTxns]
    norm_num
  · simp [net, total_income, total_expense, exampleTxns]
    norm_num

/-- C3: on a database with no user of the given name, `register_user`
returns `true` and appends exactly one user row storing the hashed
password; on a database where the name is taken it returns `false` and
mutates nothing; registering the same name twice therefore yields
success then failure and grows the user table by exactly one row. -/
theorem C3_register_unique_username (digest : String → String)
    (db db' : DB) (u p p2 : String)
    (hfree : ∀ r ∈ db.users, r.username ≠ u)
    (htaken : ∃ r ∈ db'.users, r.username = u) :
    (register_user digest db u p).1 = true
    ∧ (register_user digest db u p).2.users =
        db.users ++ [{ id := db.nextUserId, username := u,
                       password := hash_password digest p }]
    ∧ (register_user digest db u p).2.users.length = db.users.length + 1
    ∧ register_user digest db' u p = (false, db')
    ∧ (register_user digest (register_user digest db u p).2 u p2).1 = false
    ∧ (register_user digest (register_user digest db u p).2 u p2).2 =
        (register_user digest db u p).2 := by
  have hany : (db.users.any fun r => r.username == u) = false := by
    simp only [List.any_eq_false, beq_iff_eq]
    intro r hr
    exact hfree r hr
  have hany' : (db'.users.any fun r => r.username == u) = true := by
    simp only [List.any_eq_true, beq_iff_eq]
    exact htaken
  refine ⟨?_, ?_, ?_, ?_, ?_, ?_⟩ <;>
    simp [register_user, hany, hany']

/-- C3 witness: in an empty database, registering `"alice"` succeeds. -/
theorem C3_register_unique_username_witness :
    (register_user (fun s => s ++ "!")
      { users := [], transactions := [], nextUserId := 1, nextTxnId := 1 }
      "alice" "pw").1 = true :=
  (C3_register_unique_username (fun s => s ++ "!")
    { users := [], transactions := [], nextUserId := 1, nextTxnId := 1 }
    { users := [{ id := 1, username := "alice", password := "x" }],
      transactions := [], nextUserId := 2, nextTxnId := 1 }
    "alice" "pw" "pw2"
    (by simp)
    ⟨{ id := 1, username := "alice", password := "x" }, by simp, rfl⟩).1

/-- C4: `login_user` returns a stored row exactly when its username and
password-hash both match — any returned row is a stored row with the
given username and the hash of the supplied password, the result is
`none` precisely when no stored row matches both, a wrong password for
an existing username yields `none`, and the correct password yields the
matching user. -/
theorem C4_login_matches_username_and_hash (digest : String → String)
    (db dbx : DB) (u p ux px pw : String)
    (hw : hash_password digest pw ≠ hash_password digest px)
    (hstored : ∀ r ∈ dbx.users, r.username = ux →
        r.password = hash_password digest px)
    (hex : ∃ r ∈ dbx.users, r.username = ux) :
    (∀ r, (login_user digest db u p).1 = some r →
        r ∈ db.users ∧ r.username = u ∧ r.password = hash_password digest p)
    ∧ ((login_user digest db u p).1 = none ↔
        ∀ r ∈ db.users, ¬(r.username = u ∧ r.password = hash_password digest p))
    ∧ (login_user digest dbx ux pw).1 = none
    ∧ (∃ r ∈ dbx.users, (login_user digest dbx ux px).1 = some r
        ∧ r.username = ux) := by
  refine ⟨?_, ?_, ?_, ?_⟩
  · intro r hr
    have hmem := List.mem_of_find?_eq_some hr
    have hp := List.find?_some hr
    simp only [Bool.and_eq_true, beq_iff_eq] at hp
    exact ⟨hmem, hp.1, hp.2⟩
  · simp only [login_user, List.find?_eq_none, Bool.and_eq_true, beq_iff_eq,
      not_and]
  · simp only [login_user, List.find?_eq_none, Bool.and_eq_true, beq_iff_eq,
      not_and]
    intro r hr hu hpw
    exact hw (hpw.symm.trans (hstored r hr hu)) |>.elim
  · obtain ⟨r0, hr0, hu0⟩ := hex
    have hsome : ((dbx.users.find? fun r =>
        r.username == ux && r.password == hash_password digest px).isSome) = true := by
      rw [List.find?_isSome]
      exact ⟨r0, hr0, by simp [hu0, hstored r0 hr0 hu0]⟩
    obtain ⟨r, hr⟩ := Option.isSome_iff_exists.mp hsome
    have hmem := List.mem_of_find?_eq_some hr
    have hp := List.find?_some hr
    simp only [Bool.and_eq_true, beq_iff_eq] at hp
    exact ⟨r, hmem, hr, hp.1⟩

/-- C4 witness: against a one-user database storing the digest of
`"p"` for user `"u"`, the wrong password `"q"` fails to log in. -/
theorem C4_login_matches_username_and_hash_witness :
    (login_user (fun s => s ++ "!")
      { users := [{ id := 1, username := "u", password := "p!" }],
        transactions := [], nextUserId := 2, nextTxnId := 1 }
      "u" "q").1 = none :=
  (C4_login_matches_username_and_hash (fun s => s ++ "!")
    { users := [], transactions := [], nextUserId := 1, nextTxnId := 1 }
    { users := [{ id := 1, username := "u", password := "p!" }],
      transactions := [], nextUserId := 2, nextTxnId := 1 }
    "a" "b" "u" "p" "q"
    (by simp [hash_password])
    (by simp [hash_password])
    ⟨{ id := 1, username := "u", password := "p!" }, by simp, rfl⟩).2.2.1

/-- C5: the orphan reassignment rewrites exactly the rows whose owner
is the sentinel 0 to the target owner (positionally, every row is the
original row with its owner replaced iff it was 0), keeps every
already-owned row, leaves the users table alone, and a second run right
after — with any target — changes nothing. -/
theorem C5_reassign_orphans_exactly (db : DB) (u u2 : Nat) (hu : u ≠ 0) :
    (∀ i : Nat, (reassign_orphans db u).transactions[i]? =
        (db.transactions[i]?).map fun t : Txn =>
          if t.user_id = 0 then { t with user_id := u } else t)
    ∧ (∀ t ∈ db.transactions, t.user_id ≠ 0 →
        t ∈ (reassign_orphans db u).transactions)
    ∧ (reassign_orphans db u).users = db.users
    ∧ reassign_orphans (reassign_orphans db u) u2 = reassign_orphans db u := by
  refine ⟨?_, ?_, rfl, ?_⟩
  · intro i
    simp only [reassign_orphans, List.getElem?_map]
    cases db.transactions[i]? with
    | none => rfl
    | some t => simp
  · intro t ht h0
    simp only [reassign_orphans]
    refine List.mem_map.mpr ⟨t, ht, ?_⟩
    simp [h0]
  · have key :
        ((db.transactions.map fun t =>
            if t.user_id == 0 then { t with user_id := u } else t).map
          fun t => if t.user_id == 0 then { t with user_id := u2 } else t)
        = db.transactions.map fun t =>
            if t.user_id == 0 then { t with user_id := u } else t := by
      rw [List.map_map]
      apply List.map_congr_left
      intro t _
      by_cases h : t.user_id = 0
      · simp [Function.comp, h, hu]
      · simp [Function.comp, h]
    show ({ db with transactions :=
        ((db.transactions.map fun t =>
            if t.user_id == 0 then { t with user_id := u } else t).map
          fun t => if t.user_id == 0 then { t with user_id := u2 } else t) } : DB)
      = { db with transactions :=
          db.transactions.map fun t =>
            if t.user_id == 0 then { t with user_id := u } else t }
    rw [key]

/-- C5 witness: reassigning orphans to user 5 twice in a two-row
database equals reassigning once. -/
theorem C5_reassign_orphans_exactly_witness :
    reassign_orphans (reassign_orphans
      { users := [],
        transactions :=
          [{ id := 1, user_id := 0, date := "2024-01-01", t_type := "Income",
             category := "Salary", description := "", amount := 10 },
           { id := 2, user_id := 7, date := "2024-01-02", t_type := "Expense",
             category := "Food", description := "", amount := 5 }],
        nextUserId := 1, nextTxnId := 3 } 5) 5 =
    reassign_orphans
      { users := [],
        transactions :=
          [{ id := 1, user_id := 0, date := "2024-01-01", t_type := "Income",
             category := "Salary", description := "", amount := 10 },
           { id := 2, user_id := 7, date := "2024-01-02", t_type := "Expense",
             category := "Food", description := "", amount := 5 }],
        nextUserId := 1, nextTxnId := 3 } 5 :=
  (C5_reassign_orphans_exactly
    { users := [],
      transactions :=
        [{ id := 1, user_id := 0, date := "2024-01-01", t_type := "Income",
           category := "Salary", description := "", amount := 10 },
         { id := 2, user_id := 7, date := "2024-01-02", t_type := "Expense",
           category := "Food", description := "", amount := 5 }],
      nextUserId := 1, nextTxnId := 3 } 5 5 (by decide)).2.2.2

/-- C6: the startup migration appends the `user_id` column and sets the
sentinel 0 on every existing row exactly when the column is absent,
does nothing when it is present, and is idempotent. -/
theorem C6_migration_adds_column_iff_absent (t t' : RawTable)
    (habs : "user_id" ∉ t.columns) (hpres : "user_id" ∈ t'.columns) :
    (migrate_user_id t).columns = t.columns ++ ["user_id"]
    ∧ (∀ i : Nat, (migrate_user_id t).rows[i]? =
        (t.rows[i]?).map fun r : RawRow => { r with user_id := some 0 })
    ∧ migrate_user_id t' = t'
    ∧ migrate_user_id (migrate_user_id t) = migrate_user_id t := by
  have hmig : migrate_user_id t =
      { columns := t.columns ++ ["user_id"],
        rows := t.rows.map fun r => { r with user_id := some 0 } } := by
    simp [migrate_user_id, habs]
  refine ⟨?_, ?_, ?_, ?_⟩
  · rw [hmig]
  · intro i
    rw [hmig]
    simp [List.getElem?_map]
  · simp [migrate_user_id, hpres]
  · have h1 : "user_id" ∈ (migrate_user_id t).columns := by
      rw [hmig]
      simp
    have hstep : migrate_user_id (migrate_user_id t) =
        if "user_id" ∈ (migrate_user_id t).columns then migrate_user_id t
        else { columns := (migrate_user_id t).columns ++ ["user_id"],
               rows := (migrate_user_id t).rows.map
                 fun r => { r with user_id := some 0 } } := rfl
    rw [hstep, if_pos h1]

/-- C6 witness: migrating a legacy one-row table without the `user_id`
column appends that column. -/
theorem C6_migration_adds_column_iff_absent_witness :
    (migrate_user_id
      { columns := ["id", "date", "type", "category", "description", "amount"],
        rows := [{ date := "2024-01-01", t_type := "Income",
                   category := "Salary", description := "", amount := 10,
                   user_id := none }] }).columns =
      ["id", "date", "type", "category", "description", "amount"] ++ ["user_id"] :=
  (C6_migration_adds_column_iff_absent
    { columns := ["id", "date", "type", "category", "description", "amount"],
      rows := [{ date := "2024-01-01", t_type := "Income",
                 category := "Salary", description := "", amount := 10,
                 user_id := none }] }
    { columns := ["id", "user_id"], rows := [] }
    (by decide) (by decide)).1

/-- For a character list whose character at index 4 is the dash, being
prefixed by `2024-03` is the same as having `2024` in the year
positions 0-3 and `03` in the month positions 5-6. -/
theorem startsWith_2024_03_iff (l : List Char) (h : l[4]? = some '-') :
    ['2', '0', '2', '4', '-', '0', '3'] <+: l ↔
      (l.take 4 = ['2', '0', '2', '4'] ∧ (l.drop 5).take 2 = ['0', '3']) := by
  obtain ⟨hlen, hget⟩ := List.getElem?_eq_some.mp h
  have hd : l.drop 4 = '-' :: l.drop 5 := by
    rw [List.drop_eq_getElem_cons hlen, hget]
  have h7 : l.take 7 = l.take 4 ++ '-' :: (l.drop 5).take 2 := by
    have h1 : l.take (4 + 3) = l.take 4 ++ (l.drop 4).take 3 :=
      List.take_add l 4 3
    rw [hd] at h1
    exact h1
  constructor
  · rintro ⟨t, rfl⟩
    exact ⟨rfl, rfl⟩
  · rintro ⟨h1, h2⟩
    refine ⟨l.drop 7, ?_⟩
    have hl7 : l.take 7 = ['2', '0', '2', '4', '-', '0', '3'] := by
      rw [h7, h1, h2]
      rfl
    rw [← hl7]
    exact List.take_append_drop 7 l

/-- C1: `get_transactions` returns exactly the stored rows whose owner
matches; a month filter additionally requires the two-digit month
portion of the stored date, a year filter the four-digit year portion,
and with month 3 and year 2024 exactly the owner's rows whose date
starts with `2024-03` are kept; with no filters, all of the owner's
rows and no others are returned. -/
theorem C1_get_transactions_owner_and_date_filters
    (db : DB) (uid : Nat) (m y : Nat) (t : Txn)
    (hm1 : 1 ≤ m) (hm12 : m ≤ 12) (hy : y ≠ 0)
    (hdash : t.date.toList[4]? = some '-') :
    (t ∈ get_transactions db uid none none ↔
        t ∈ db.transactions ∧ t.user_id = uid)
    ∧ (t ∈ get_transactions db uid (some m) none ↔
        t ∈ db.transactions ∧ t.user_id = uid
        ∧ strftime_m t.date = pad2 m)
    ∧ (t ∈ get_transactions db uid none (some y) ↔
        t ∈ db.transactions ∧ t.user_id = uid
        ∧ strftime_Y t.date = toString y)
    ∧ (t ∈ get_transactions db uid (some m) (some y) ↔
        t ∈ db.transactions ∧ t.user_id = uid
        ∧ strftime_m t.date = pad2 m ∧ strftime_Y t.date = toString y)
    ∧ (t ∈ get_transactions db uid (some 3) (some 2024) ↔
        t ∈ db.transactions ∧ t.user_id = uid
        ∧ "2024-03".toList <+: t.date.toList) := by
  have hm0 : m ≠ 0 := by omega
  have em : truthy (some m) = true := by simp [truthy, hm0]
  have ey : truthy (some y) = true := by simp [truthy, hy]
  have hgen : ∀ mo yr : Option Nat,
      t ∈ get_transactions db uid mo yr ↔
        t ∈ db.transactions ∧
          (t.user_id == uid
           && (if truthy mo then strftime_m t.date == pad2 (mo.getD 0) else true)
           && (if truthy yr then strftime_Y t.date == toString (yr.getD 0) else true))
            = true := by
    intro mo yr
    exact List.mem_filter
  have en : truthy none = false := rfl
  refine ⟨?_, ?_, ?_, ?_, ?_⟩
  · rw [hgen]
    simp [en, and_assoc]
  · rw [hgen]
    simp [em, en, and_assoc]
  · rw [hgen]
    simp [en, ey, and_assoc]
  · rw [hgen]
    simp [em, ey, and_assoc]
  · rw [hgen]
    have e3 : truthy (some 3) = true := rfl
    have e4 : truthy (some 2024) = true := rfl
    have hsm : strftime_m t.date = "03" ↔
        (t.date.toList.drop 5).take 2 = ['0', '3'] := String.ext_iff
    have hsY : strftime_Y t.date = "2024" ↔
        t.date.toList.take 4 = ['2', '0', '2', '4'] := String.ext_iff
    have hlit : "2024-03".toList = ['2', '0', '2', '4', '-', '0', '3'] := by
      decide
    have hpad : pad2 3 = "03" := by decide
    have hstr : toString (2024 : Nat) = "2024" := by decide
    have hpre := startsWith_2024_03_iff t.date.toList hdash
    simp only [e3, e4, if_true, Option.getD_some, Bool.and_eq_true, beq_iff_eq,
      and_assoc, hpad, hstr, hsm, hsY, hlit, hpre]
    constructor
    · rintro ⟨a, b, c, d⟩
      exact ⟨a, b, d, c⟩
    · rintro ⟨a, b, d, c⟩
      exact ⟨a, b, c, d⟩

/-- C1 witness: in a one-row database owned by user 1 and dated
`2024-03-15`, the unfiltered listing for owner 1 contains the row. -/
theorem C1_get_transactions_owner_and_date_filters_witness :
    ({ id := 1, user_id := 1, date := "2024-03-15", t_type := "Income",
       category := "Salary", description := "", amount := 10 } : Txn) ∈
      get_transactions
        { users := [], transactions :=
            [{ id := 1, user_id := 1, date := "2024-03-15", t_type := "Income",
               category := "Salary", description := "", amount := 10 }],
          nextUserId := 1, nextTxnId := 2 } 1 none none :=
  ((C1_get_transactions_owner_and_date_filters
    { users := [], transactions :=
        [{ id := 1, user_id := 1, date := "2024-03-15", t_type := "Income",
           category := "Salary", description := "", amount := 10 }],
      nextUserId := 1, nextTxnId := 2 } 1 3 2024
    { id := 1, user_id := 1, date := "2024-03-15", t_type := "Income",
      category := "Salary", description := "", amount := 10 }
    (by decide) (by decide) (by decide) (by decide)).1).mpr
    (by simp)
